import Mathlib

/-!
Verification development for the Telegram dialog-listing core of this
repository, a shallow embedding of
`src/telegram_summarizer/utils/telegram_dialog_lister.py` and
`src/telegram_summarizer/utils/dialog_info.py`.

The Python client is asynchronous and talks to an external transport
(the telethon `TelegramClient`).  The embedding makes the transport behaviour
an explicit input: what `client.start()` does during `connect` is a
`StartResult` (two of them, since the two-factor branch calls `start` a second
time), and what `client.iter_dialogs()` yields during `list_dialogs` is a list
of `FeedItem`s, each either a dialog record or an exception raised by the
iterator at that point.  Environment variables read by `_get_env_var` are
passed as `Option String` arguments.  Python exceptions become the `PyErr`
error type of an `Except` result; `await` points have no other observable
effect here, so the functions are pure state transformers.
-/

/-- Raw remote entity descriptor, the closed-variant rendering of the
duck-typed `entity` values that `_get_entity_type` inspects with
`isinstance`: the telethon classes `User`, `Chat` and `Channel` plus a
fall-through shape for anything else.  `participants_count` is optional
because the Python code reads it with `getattr` and a `None` default;
`broadcast` is the `Channel.broadcast` flag. -/
inductive RawEntity where
  | user (id : Int)
  | chat (id : Int) (participants_count : Option Int)
  | channel (id : Int) (broadcast : Bool) (participants_count : Option Int)
  | other (id : Int)
deriving DecidableEq

/-- The `entity.id` attribute, present on every shape. -/
def RawEntity.entityId : RawEntity → Int
  | .user i => i
  | .chat i _ => i
  | .channel i _ _ => i
  | .other i => i

/-- Embedding of `TelegramDialogLister._get_entity_type` (the isinstance
chain at lines 34-47 of `telegram_dialog_lister.py`). -/
def get_entity_type : RawEntity → String × Option Int
  | .user _ => ("Private Chat", none)
  | .chat _ c => ("Basic Group", c)
  | .channel _ b c => if b then ("Channel (broadcast)", c) else ("Supergroup", c)
  | .other _ => ("Unknown", none)

/-- Embedding of `dialog_info.DialogInfo`, the normalized output record. -/
structure DialogInfo where
  name : String
  entity_id : Int
  entity_type : String
  participant_count : Option Int
deriving DecidableEq

/-- Python exceptions that the lister raises or propagates: the telethon
`FloodWaitError` (carrying `e.seconds`), `SessionPasswordNeededError`, an
arbitrary other `Exception`, and the Python `RuntimeError` and `ValueError` with
their messages. -/
inductive PyErr where
  | floodWait (seconds : Nat)
  | sessionPasswordNeeded
  | otherError
  | runtimeError (msg : String)
  | valueError (msg : String)
deriving DecidableEq

/-- Reads a non-empty run of decimal digits as a number; `none` as soon as a
non-digit appears (a run that is empty is ruled out by the guard at the
call site). -/
def pyDigitsAux : List Char → Nat → Option Nat
  | [], acc => some acc
  | c :: rest, acc =>
    if c.isDigit then pyDigitsAux rest (acc * 10 + (c.toNat - 48)) else none

/-- The Python `int(value)` on a string, as used by `_get_env_var`: surrounding
whitespace stripped, an optional single sign, then a non-empty run of decimal
digits; anything else raises `ValueError`, rendered here as `none`.  (Exotic
accepted spellings — underscore digit separators, non-ASCII digits — are out
of scope of this model.) -/
def pyInt (s : String) : Option Int :=
  let cs :=
    ((s.toList.dropWhile (fun c => c = ' ')).reverse.dropWhile (fun c => c = ' ')).reverse
  match cs with
  | [] => none
  | '-' :: rest =>
    if rest = [] then none else (pyDigitsAux rest 0).map (fun n => -(n : Int))
  | '+' :: rest =>
    if rest = [] then none else (pyDigitsAux rest 0).map (fun n => (n : Int))
  | _ => (pyDigitsAux cs 0).map (fun n => (n : Int))

/-- Embedding of `TelegramDialogLister._get_env_var` (lines 19-32).  `value`
is what `os.getenv(var_name)` returned (`none` for an unset variable; the Python
`if not value` also treats the empty string as unset).  With `is_int` the
value must parse as an integer and is normalized through `str(int(value))`. -/
def get_env_var (var_name : String) (value : Option String) (is_int : Bool) :
    Except PyErr String :=
  match value with
  | none =>
    .error (.valueError ("Environment variable " ++ var_name ++
      " is not set. Please set it before running this script."))
  | some v =>
    if v = "" then
      .error (.valueError ("Environment variable " ++ var_name ++
        " is not set. Please set it before running this script."))
    else if is_int then
      match pyInt v with
      | some n => .ok (toString n)
      | none => .error (.valueError (var_name ++ " must be a valid integer"))
    else .ok v

/-- State of the underlying `TelegramClient` handle: whether
`is_connected()` holds. -/
structure ClientState where
  connected : Bool
deriving DecidableEq

/-- State of a `TelegramDialogLister`: its `self.client` field, `none` before
any `connect` (as `__init__` leaves it). -/
structure ListerState where
  client : Option ClientState
deriving DecidableEq

/-- The fields `__init__` (lines 13-17) computes before any connection
exists: it resolves both environment variables through `_get_env_var` and
sets `self.client = None`.  It takes no transport input at all, so no network
call can happen here; a bad variable raises `ValueError` immediately. -/
structure ListerInit where
  session_name : String
  api_id : String
  api_hash : String
  client : Option ClientState
deriving DecidableEq

/-- Embedding of `TelegramDialogLister.__init__`: `env_api_id` and
`env_api_hash` are the values of `TELEGRAM_API_ID` and `TELEGRAM_API_HASH`
in the process environment. -/
def listerInit (session_name : String) (env_api_id env_api_hash : Option String) :
    Except PyErr ListerInit :=
  match get_env_var "TELEGRAM_API_ID" env_api_id true with
  | .error e => .error e
  | .ok api_id =>
    match get_env_var "TELEGRAM_API_HASH" env_api_hash false with
    | .error e => .error e
    | .ok api_hash => .ok ⟨session_name, api_id, api_hash, none⟩

/-- What one call to `client.start()` does, seen from the transport:
succeed, raise `SessionPasswordNeededError`, raise `FloodWaitError(seconds)`,
or raise some other exception. -/
inductive StartResult where
  | ok
  | sessionPasswordNeeded
  | floodWait (seconds : Nat)
  | otherError
deriving DecidableEq

/-- The connectivity guard of the lister, `self.client and
self.client.is_connected()` in the Python code. -/
def is_connected (st : ListerState) : Bool :=
  match st.client with
  | some c => c.connected
  | none => false

/-- Embedding of `TelegramDialogLister.connect` (lines 49-63).  `first` is
what the initial `client.start()` does; `second` is what the
`client.start(password=...)` inside the `SessionPasswordNeededError` handler
does (consulted only on that branch).  The method always assigns
`self.client` first, so every outcome leaves a client handle in place; a
`FloodWaitError` is logged and re-raised with no retry, any other exception is
logged and re-raised, and an exception out of the second `start` in the handler
propagates uncaught. -/
def connect (first second : StartResult) : ListerState × Except PyErr Unit :=
  match first with
  | .ok => (⟨some ⟨true⟩⟩, .ok ())
  | .sessionPasswordNeeded =>
    match second with
    | .ok => (⟨some ⟨true⟩⟩, .ok ())
    | .sessionPasswordNeeded => (⟨some ⟨false⟩⟩, .error .sessionPasswordNeeded)
    | .floodWait s => (⟨some ⟨false⟩⟩, .error (.floodWait s))
    | .otherError => (⟨some ⟨false⟩⟩, .error .otherError)
  | .floodWait s => (⟨some ⟨false⟩⟩, .error (.floodWait s))
  | .otherError => (⟨some ⟨false⟩⟩, .error .otherError)

/-- Embedding of `TelegramDialogLister.disconnect` (lines 90-93): only when
`self.client` exists and is connected does it call the corresponding client
`disconnect`, which leaves the handle in place but unconnected. -/
def disconnect (st : ListerState) : ListerState :=
  match st.client with
  | some c => if c.connected then ⟨some ⟨false⟩⟩ else st
  | none => st

/-- One dialog as `iter_dialogs` yields it: `dialog.name` (telethon may give
`None`, rendered `none`, or any string including the empty one) and
`dialog.entity`. -/
structure RawDialog where
  nameOpt : Option String
  entity : RawEntity
deriving DecidableEq

/-- The Python `dialog.name or "Unnamed"` (line 75): both `None` and the empty
string are falsy, so both fall back to the placeholder. -/
def resolveName : Option String → String
  | none => "Unnamed"
  | some s => if s = "" then "Unnamed" else s

/-- The `DialogInfo(...)` construction in the body of the `async for` loop
(lines 74-79). -/
def mkDialogInfo (d : RawDialog) : DialogInfo :=
  ⟨resolveName d.nameOpt, d.entity.entityId, (get_entity_type d.entity).1,
    (get_entity_type d.entity).2⟩

/-- One step of the remote iteration inside `list_dialogs`: either
`iter_dialogs` yields a dialog, or it raises `FloodWaitError(s)`, or it raises
some other exception at that point. -/
inductive FeedItem where
  | item (d : RawDialog)
  | floodWait (seconds : Nat)
  | otherError
deriving DecidableEq

/-- The `async for` loop of `list_dialogs` with its accumulator `dialogs`:
each yielded dialog is appended; a `FloodWaitError` or any other exception is
logged and re-raised, abandoning the accumulated list (the Python function
raises, returning nothing). -/
def listDialogsLoop : List FeedItem → List DialogInfo → Except PyErr (List DialogInfo)
  | [], acc => .ok acc
  | .item d :: rest, acc => listDialogsLoop rest (acc ++ [mkDialogInfo d])
  | .floodWait s :: _, _ => .error (.floodWait s)
  | .otherError :: _, _ => .error .otherError

/-- Embedding of `TelegramDialogLister.list_dialogs` (lines 65-88): the
precondition check `if not self.client or not self.client.is_connected()`
raises `RuntimeError` before anything is pulled from the remote (and nothing
here connects), then the loop runs over the remote feed. -/
def list_dialogs (st : ListerState) (feed : List FeedItem) :
    Except PyErr (List DialogInfo) :=
  if is_connected st then listDialogsLoop feed []
  else .error (.runtimeError "Client is not connected. Call connect() first.")

/-- Outcome of one `async with TelegramDialogLister() as lister:` block:
the final lister state, the result of the block, and whether `__aexit__` (hence
`disconnect`) ran. -/
structure WithResult (α : Type) where
  finalState : ListerState
  result : Except PyErr α
  disconnectCalled : Bool

/-- The Python `async with` over the lister (`__aenter__` / `__aexit__`, lines
95-100): `__aenter__` runs `connect`; if that raises, the exception
propagates and `__aexit__` is never invoked (PEP 343 semantics).  If it
succeeds, the body runs and `__aexit__` — which calls `disconnect` — runs on
every exit of the body, success or exception. -/
def withLister {α : Type} (first second : StartResult)
    (body : ListerState → Except PyErr α) : WithResult α :=
  match connect first second with
  | (st1, .ok _) => ⟨disconnect st1, body st1, true⟩
  | (st1, .error e) => ⟨st1, .error e, false⟩

/-- The five category labels `_get_entity_type` can produce. -/
def categoryLabels : List String :=
  ["Private Chat", "Basic Group", "Channel (broadcast)", "Supergroup", "Unknown"]

theorem resolveName_ne_empty (n : Option String) : resolveName n ≠ "" := by
  cases n with
  | none => decide
  | some s =>
    simp only [resolveName]
    split
    · decide
    · assumption

theorem mkDialogInfo_name_ne_empty (d : RawDialog) : (mkDialogInfo d).name ≠ "" :=
  resolveName_ne_empty d.nameOpt

theorem listDialogsLoop_items (ds : List RawDialog) (acc : List DialogInfo) :
    listDialogsLoop (ds.map FeedItem.item) acc = .ok (acc ++ ds.map mkDialogInfo) := by
  induction ds generalizing acc with
  | nil => simp [listDialogsLoop]
  | cons d rest ih => simp [listDialogsLoop, ih]

theorem listDialogsLoop_items_append (ds : List RawDialog) (rest : List FeedItem)
    (acc : List DialogInfo) :
    listDialogsLoop (ds.map FeedItem.item ++ rest) acc =
      listDialogsLoop rest (acc ++ ds.map mkDialogInfo) := by
  induction ds generalizing acc with
  | nil => simp
  | cons d tl ih => simp [listDialogsLoop, ih]

theorem listDialogsLoop_names (feed : List FeedItem) (acc res : List DialogInfo)
    (hacc : ∀ d ∈ acc, d.name ≠ "")
    (h : listDialogsLoop feed acc = .ok res) :
    ∀ d ∈ res, d.name ≠ "" := by
  induction feed generalizing acc with
  | nil =>
    simp only [listDialogsLoop, Except.ok.injEq] at h
    subst h
    exact hacc
  | cons x rest ih =>
    cases x with
    | item d =>
      refine ih (acc ++ [mkDialogInfo d]) ?_ ?_
      · intro d' hd'
        rcases List.mem_append.mp hd' with h1 | h1
        · exact hacc d' h1
        · rw [List.mem_singleton.mp h1]
          exact mkDialogInfo_name_ne_empty d
      · simpa [listDialogsLoop] using h
    | floodWait s => simp [listDialogsLoop] at h
    | otherError => simp [listDialogsLoop] at h

theorem get_env_var_error_shape (n : String) (v : Option String) (b : Bool) (e : PyErr)
    (h : get_env_var n v b = .error e) : ∃ m, e = PyErr.valueError m := by
  cases v with
  | none =>
    exact ⟨_, (Except.error.inj h).symm⟩
  | some s =>
    by_cases hs : s = ""
    · subst hs
      rw [get_env_var, if_pos rfl] at h
      exact ⟨_, (Except.error.inj h).symm⟩
    · cases b with
      | false =>
        rw [get_env_var, if_neg hs] at h
        simp at h
      | true =>
        rw [get_env_var, if_neg hs] at h
        simp only [if_true] at h
        cases hp : pyInt s with
        | none =>
          rw [hp] at h
          exact ⟨_, (Except.error.inj h).symm⟩
        | some k =>
          rw [hp] at h
          simp at h

/-- C1: `_get_entity_type` is total with no failure path and returns exactly
one of the five fixed category labels, following the ordered rules: a `User`
gives ("Private Chat", none); a `Chat` gives ("Basic Group", reported count);
a `Channel` with `broadcast` gives ("Channel (broadcast)", reported count); a
`Channel` without gives ("Supergroup", reported count); any other shape gives
("Unknown", none). -/
theorem get_entity_type_total_rules :
    (∀ e : RawEntity, (get_entity_type e).1 ∈ categoryLabels) ∧
    (∀ i, get_entity_type (.user i) = ("Private Chat", none)) ∧
    (∀ i c, get_entity_type (.chat i c) = ("Basic Group", c)) ∧
    (∀ i c, get_entity_type (.channel i true c) = ("Channel (broadcast)", c)) ∧
    (∀ i c, get_entity_type (.channel i false c) = ("Supergroup", c)) ∧
    (∀ i, get_entity_type (.other i) = ("Unknown", none)) := by
  refine ⟨?_, fun i => rfl, fun i c => rfl, fun i c => rfl, fun i c => rfl, fun i => rfl⟩
  intro e
  cases e with
  | user i => simp [get_entity_type, categoryLabels]
  | chat i c => simp [get_entity_type, categoryLabels]
  | channel i b c => cases b <;> simp [get_entity_type, categoryLabels]
  | other i => simp [get_entity_type, categoryLabels]

/-- C2: with a connected session and a remote feed of N entities in which no
rate limiting and no other error occurs, `list_dialogs` returns exactly the N
`DialogInfo` records, in feed order, each built from its entity: the
name resolved with the "Unnamed" fallback, the category and participant count
those of `_get_entity_type`. -/
theorem list_dialogs_maps_feed (st : ListerState) (ds : List RawDialog)
    (h : is_connected st = true) :
    list_dialogs st (ds.map FeedItem.item) = .ok (ds.map mkDialogInfo) ∧
    (ds.map mkDialogInfo).length = ds.length ∧
    ∀ d : RawDialog,
      (mkDialogInfo d).name = resolveName d.nameOpt ∧
      (mkDialogInfo d).entity_id = d.entity.entityId ∧
      (mkDialogInfo d).entity_type = (get_entity_type d.entity).1 ∧
      (mkDialogInfo d).participant_count = (get_entity_type d.entity).2 := by
  refine ⟨?_, by simp, fun d => ⟨rfl, rfl, rfl, rfl⟩⟩
  simp [list_dialogs, h, listDialogsLoop_items]

theorem list_dialogs_maps_feed_witness :
    list_dialogs ⟨some ⟨true⟩⟩
        ([⟨some "Alice", .user 42⟩, ⟨none, .chat 9 (some 3)⟩].map FeedItem.item) =
      .ok [⟨"Alice", 42, "Private Chat", none⟩, ⟨"Unnamed", 9, "Basic Group", some 3⟩] :=
  (list_dialogs_maps_feed ⟨some ⟨true⟩⟩
    [⟨some "Alice", .user 42⟩, ⟨none, .chat 9 (some 3)⟩] rfl).1

/-- C3 counterexample: one rate-limit signal during `connect`, in a run where
a retry would have succeeded (the next `start` would return ok): `connect`
nevertheless fails at once with the flood error — it never retries, contrary
to the claimed deferral to a retry policy with a ceiling. -/
theorem connect_floodwait_counterexample :
    (connect (.floodWait 5) .ok).2 = .error (.floodWait 5) ∧
    is_connected (connect (.floodWait 5) .ok).1 = false := ⟨rfl, rfl⟩

/-- C3 amended: when the remote reports a rate-limit signal during `connect`,
the operation fails immediately with the flood error carrying the
remote-reported wait (no retry is attempted, whatever the transport would do
next), and the client is left not connected. -/
theorem connect_floodwait_no_retry (s : Nat) (second : StartResult) :
    (connect (.floodWait s) second).2 = .error (.floodWait s) ∧
    is_connected (connect (.floodWait s) second).1 = false := ⟨rfl, rfl⟩

/-- C4 counterexample: a feed of two entities with one rate-limit signal
between them (position k = 1).  The claim predicts both records are still
produced; `list_dialogs` instead aborts with the flood error and produces
nothing. -/
theorem list_dialogs_floodwait_counterexample :
    list_dialogs ⟨some ⟨true⟩⟩
        [.item ⟨some "Alice", .user 42⟩, .floodWait 3, .item ⟨some "Bob", .user 43⟩] =
      .error (.floodWait 3) := rfl

/-- C4 amended: a rate-limit signal mid-enumeration aborts the listing: the
flood error is re-raised (after logging) and no records are returned — the
enumeration neither resumes nor restarts. -/
theorem list_dialogs_floodwait_aborts (st : ListerState) (pre : List RawDialog)
    (post : List FeedItem) (s : Nat) (h : is_connected st = true) :
    list_dialogs st (pre.map FeedItem.item ++ FeedItem.floodWait s :: post) =
      .error (.floodWait s) := by
  simp [list_dialogs, h, listDialogsLoop_items_append, listDialogsLoop]

theorem list_dialogs_floodwait_aborts_witness :
    list_dialogs ⟨some ⟨true⟩⟩
        ([⟨some "Alice", .user 42⟩].map FeedItem.item ++
          FeedItem.floodWait 7 :: [.item ⟨some "Bob", .user 43⟩]) =
      .error (.floodWait 7) :=
  list_dialogs_floodwait_aborts ⟨some ⟨true⟩⟩ [⟨some "Alice", .user 42⟩]
    [.item ⟨some "Bob", .user 43⟩] 7 rfl

/-- C5 counterexample: one entity is enumerated, then the remote raises an
ordinary error.  The claim predicts an `EnumerationError` wrapper and the one
already-produced record still available to the caller; `list_dialogs` instead
re-raises the underlying error itself, and the caller receives no records at
all. -/
theorem list_dialogs_other_error_counterexample :
    list_dialogs ⟨some ⟨true⟩⟩ [.item ⟨some "Alice", .user 42⟩, .otherError] =
      .error .otherError := rfl

/-- C5 amended: a non-rate-limit remote error mid-enumeration aborts the
listing and is re-raised unwrapped (after logging); the partial records
accumulated before the abort are discarded — the caller receives only the
error. -/
theorem list_dialogs_other_error_aborts (st : ListerState) (pre : List RawDialog)
    (post : List FeedItem) (h : is_connected st = true) :
    list_dialogs st (pre.map FeedItem.item ++ FeedItem.otherError :: post) =
      .error PyErr.otherError := by
  simp [list_dialogs, h, listDialogsLoop_items_append, listDialogsLoop]

theorem list_dialogs_other_error_aborts_witness :
    list_dialogs ⟨some ⟨true⟩⟩
        ([⟨some "Alice", .user 42⟩].map FeedItem.item ++
          FeedItem.otherError :: [.item ⟨some "Bob", .user 43⟩]) =
      .error PyErr.otherError :=
  list_dialogs_other_error_aborts ⟨some ⟨true⟩⟩ [⟨some "Alice", .user 42⟩]
    [.item ⟨some "Bob", .user 43⟩] rfl

/-- C6 counterexample: when `connect` itself fails inside `__aenter__` (here
with a rate-limit signal), `__aexit__` never runs, so `disconnect` is not
invoked — contrary to the claim that disconnect runs on every exit path
including a failing connect. -/
theorem withLister_connect_failure_counterexample :
    (withLister (.floodWait 5) .ok
        (fun st => list_dialogs st [])).disconnectCalled = false := rfl

/-- C6 amended: under the `async with` discipline, `disconnect` is invoked on
every exit path on which `connect` succeeded (body success or body
exception); when `connect` itself fails, `disconnect` is not invoked, but the
client is left unconnected at that point, so no connection remains open after
any terminal outcome. -/
theorem withLister_release (α : Type) (first second : StartResult)
    (body : ListerState → Except PyErr α) :
    is_connected (withLister first second body).finalState = false ∧
    ((connect first second).2 = .ok () →
      (withLister first second body).disconnectCalled = true) := by
  cases first <;> cases second <;>
    simp [withLister, connect, disconnect, is_connected]

/-- C7: whenever the session is not connected (`self.client` missing or its
`is_connected()` false), `list_dialogs` fails immediately with the
`RuntimeError` precondition violation, whatever the remote feed holds — so
nothing is pulled from the remote and no implicit connect is performed. -/
theorem list_dialogs_requires_connected (st : ListerState) (feed : List FeedItem)
    (h : is_connected st = false) :
    list_dialogs st feed =
      .error (.runtimeError "Client is not connected. Call connect() first.") := by
  simp [list_dialogs, h]

theorem list_dialogs_requires_connected_witness :
    list_dialogs ⟨none⟩ [.item ⟨some "Alice", .user 42⟩] =
      .error (.runtimeError "Client is not connected. Call connect() first.") :=
  list_dialogs_requires_connected ⟨none⟩ [.item ⟨some "Alice", .user 42⟩] rfl

/-- C8: a missing or empty environment credential (for example an empty
`TELEGRAM_API_HASH`) or a `TELEGRAM_API_ID` that does not parse as an
integer makes `__init__` fail with `ValueError`; the constructor takes no
transport input at all, so this happens before any network call or
connection attempt. -/
theorem listerInit_config_error (sn : String) (env_id env_hash : Option String)
    (h : env_id = none ∨ env_id = some "" ∨
         (∃ s, env_id = some s ∧ s ≠ "" ∧ pyInt s = none) ∨
         env_hash = none ∨ env_hash = some "") :
    ∃ msg, listerInit sn env_id env_hash = .error (.valueError msg) := by
  rcases h with h | h | ⟨s, hid, hne, hpy⟩ | h | h
  · subst h
    exact ⟨_, rfl⟩
  · subst h
    exact ⟨_, rfl⟩
  · subst hid
    refine ⟨"TELEGRAM_API_ID must be a valid integer", ?_⟩
    rw [listerInit, get_env_var, if_neg hne]
    simp only [if_true, hpy]
    rfl
  · subst h
    cases hid : get_env_var "TELEGRAM_API_ID" env_id true with
    | error e =>
      obtain ⟨m, hm⟩ := get_env_var_error_shape _ _ _ _ hid
      subst hm
      exact ⟨m, by rw [listerInit, hid]⟩
    | ok v =>
      refine ⟨"Environment variable TELEGRAM_API_HASH is not set. Please set it before running this script.", ?_⟩
      rw [listerInit, hid]
      rfl
  · subst h
    cases hid : get_env_var "TELEGRAM_API_ID" env_id true with
    | error e =>
      obtain ⟨m, hm⟩ := get_env_var_error_shape _ _ _ _ hid
      subst hm
      exact ⟨m, by rw [listerInit, hid]⟩
    | ok v =>
      refine ⟨"Environment variable TELEGRAM_API_HASH is not set. Please set it before running this script.", ?_⟩
      rw [listerInit, hid]
      rfl

theorem listerInit_config_error_witness :
    ∃ msg, listerInit "telegram_session" (some "123") (some "") =
      .error (.valueError msg) :=
  listerInit_config_error "telegram_session" (some "123") (some "")
    (Or.inr (Or.inr (Or.inr (Or.inr rfl))))

/-- C9: `disconnect` is idempotent and safe in every state — applying it to
any state, including an already-disconnected one, is defined and applying it
twice equals applying it once — and after it `is_connected` is false. -/
theorem disconnect_idempotent_safe (st : ListerState) :
    disconnect (disconnect st) = disconnect st ∧
    is_connected (disconnect st) = false := by
  cases st with
  | mk c =>
    cases c with
    | none => exact ⟨rfl, rfl⟩
    | some cs =>
      cases cs with
      | mk b => cases b <;> exact ⟨rfl, rfl⟩

/-- C10: every record an `.ok` run of `list_dialogs` emits carries a
non-empty name: the "Unnamed" substitution fires both when the remote
supplies no name and when it supplies the empty string (the Python
`dialog.name or "Unnamed"` treats both as falsy). -/
theorem list_dialogs_names_nonempty (st : ListerState) (feed : List FeedItem)
    (res : List DialogInfo) (h : list_dialogs st feed = .ok res) :
    (∀ d ∈ res, d.name ≠ "") ∧
    resolveName (some "") = "Unnamed" ∧ resolveName none = "Unnamed" := by
  refine ⟨?_, rfl, rfl⟩
  by_cases hc : is_connected st = true
  · exact listDialogsLoop_names feed [] res (by simp)
      (by simpa [list_dialogs, hc] using h)
  · simp [list_dialogs, hc] at h

theorem list_dialogs_names_nonempty_witness :
    (∀ d ∈ [DialogInfo.mk "Unnamed" 42 "Private Chat" none], d.name ≠ "") ∧
    resolveName (some "") = "Unnamed" ∧ resolveName none = "Unnamed" :=
  list_dialogs_names_nonempty ⟨some ⟨true⟩⟩ [.item ⟨some "", .user 42⟩]
    [⟨"Unnamed", 42, "Private Chat", none⟩] rfl
